import Mathlib

/-!
Shallow embedding, in Lean 4, of the orchestration core of the repository:

* `streamlit_gradio/interface.py` — the `Interface` orchestrator: construction
  (output auto-repeat, interpretation normalization, allow-flagging
  normalization, duration accumulators), the `run_prediction`/`process`
  pipeline, `__call__`, and `predict_fn`;
* `streamlit_gradio/external.py` — the remote descriptor loaders
  (`get_huggingface_interface`, `query_huggingface_api`,
  `get_spaces_interface`, `interface_params_from_config`);
* `external_models/vanderpol.py` — the defensive parameter-coercion stage of
  the stand-alone `simulate` script.

Python dynamic values are embedded as the inductive `PyVal`; raised Python
exceptions are embedded as `Except PyErr`.  Wall-clock timing
(`time.time()` deltas) is modelled by an explicit duration oracle
`durO : Nat -> Rat` giving the duration of the i-th function call of a
`process` invocation.  Network responses are passed in explicitly as data.
-/

/-- Embedded Python runtime values (the fragment used by this code base:
`None`, booleans, ints, floats, strings, lists, and string-keyed dicts).
Floats are modelled as rationals. -/
inductive PyVal where
  | none : PyVal
  | bool : Bool → PyVal
  | int : Int → PyVal
  | float : ℚ → PyVal
  | str : String → PyVal
  | list : List PyVal → PyVal
  | dict : List (String × PyVal) → PyVal

/-- Embedded Python exceptions, by class and message. -/
inductive PyErr where
  | valueError (msg : String)
  | typeError (msg : String)
  | indexError (msg : String)
  | keyError (msg : String)
  | attributeError (msg : String)
  | assertionError (msg : String)
  | jsonDecodeError (msg : String)
deriving Repr, DecidableEq

/-- Python `str.upper()` (character-wise uppercasing). -/
def pyUpper (s : String) : String := String.mk (s.data.map Char.toUpper)

/-- Python `str.lower()` (character-wise lowercasing). -/
def pyLower (s : String) : String := String.mk (s.data.map Char.toLower)

/-- Python list indexing `xs[i]` for a non-negative index: raises `IndexError`
when out of range. -/
def pyIndex {α : Type} (xs : List α) (i : ℕ) : Except PyErr α :=
  match xs.get? i with
  | some v => Except.ok v
  | Option.none => Except.error (PyErr.indexError "list index out of range")

/-- An input component (`InputComponent` from the missing `inputs.py`),
reduced to the capability methods the orchestrator calls: `preprocess`
and `serialize`.  The orchestrator treats these as opaque callables. -/
structure InputComponent where
  preprocess : PyVal → PyVal
  serialize : PyVal → Bool → PyVal

/-- An output component (`OutputComponent` from the missing `outputs.py`),
reduced to the capability methods the orchestrator calls: `postprocess`
and `deserialize`. -/
structure OutputComponent where
  postprocess : PyVal → PyVal
  deserialize : PyVal → PyVal

/-- The `interpretation` constructor argument of `Interface.__init__`,
partitioned exactly as the Python type tests at interface.py lines 165-170
partition it: `None`, a list, a callable, a string, or anything else. -/
inductive InterpArg where
  | none : InterpArg
  | list (xs : List PyVal) : InterpArg
  | callable : InterpArg
  | str (s : String) : InterpArg
  | other : InterpArg

/-- Python `v == b` for a boolean constant `b`, as performed by
`allow_flagging == True` / `== False` (interface.py lines 236, 243).
Python booleans compare by value, and — because `bool` is an `int` subtype —
numbers compare numerically with booleans: `1 == True`, `0 == False`,
`1.0 == True`.  Strings, lists, dicts and `None` are never equal to a
boolean. -/
def pyEqBool : PyVal → Bool → Bool
  | PyVal.bool c, b => c == b
  | PyVal.int n, b => n == (if b then 1 else 0)
  | PyVal.float q, b => q == (if b then 1 else 0)
  | _, _ => false

/-- Python `v == s` for a string constant `s`, as performed by
`allow_flagging == "manual"` etc. (interface.py lines 241, 248, 250):
only strings compare equal to a string. -/
def pyEqStr : PyVal → String → Bool
  | PyVal.str t, s => t == s
  | _, _ => false

/-- interface.py lines 165-170: `None`, lists and callables are stored
as-is; a string is lowercased and broadcast to one entry per input
component; any other type raises `ValueError`. -/
def resolveInterpretation (interpretation : InterpArg)
    (input_components : List InputComponent) : Except PyErr InterpArg :=
  match interpretation with
  | InterpArg.none => Except.ok InterpArg.none
  | InterpArg.list xs => Except.ok (InterpArg.list xs)
  | InterpArg.callable => Except.ok InterpArg.callable
  | InterpArg.str s =>
      Except.ok (InterpArg.list (input_components.map (fun _ => PyVal.str (pyLower s))))
  | InterpArg.other =>
      Except.error (PyErr.valueError "Invalid value for parameter: interpretation")

/-- interface.py lines 234-254: an `allow_flagging` of `None` (the `is
None` identity test) is replaced by the `GRADIO_ALLOW_FLAGGING` environment
value (default `"manual"`); then the chain of Python `==` tests maps any
value equal to `True` (including numeric `1`) to `"manual"`, any value
equal to `False` (including numeric `0`) to `"never"`, accepts the strings
`"manual"`, `"never"`, `"auto"` unchanged, and raises `ValueError` for
everything else. -/
def resolveAllowFlagging (envAllowFlagging : Option String) (a : PyVal) :
    Except PyErr String :=
  let a := match a with
    | PyVal.none => PyVal.str (envAllowFlagging.getD "manual")
    | x => x
  if pyEqBool a true then Except.ok "manual"
  else if pyEqStr a "manual" then Except.ok "manual"
  else if pyEqBool a false then Except.ok "never"
  else if pyEqStr a "never" then Except.ok "never"
  else if pyEqStr a "auto" then Except.ok "auto"
  else Except.error (PyErr.valueError
    "Invalid value for allow_flagging parameter. Must be: auto, manual, or never.")

/-- The state behind `self.predict_durations`.  interface.py line 173 builds
it as `[[0, 0]] * len(fn)`: Python list repetition copies the *reference* to
the single inner `[0, 0]` list, so all positions alias one `[sum, count]`
cell.  The embedding makes the heap explicit: `cells` is the pool of
allocated inner lists and `ptrs` maps each position of
`self.predict_durations` to its cell. -/
structure DurationState where
  cells : List (ℚ × ℕ)
  ptrs : List ℕ

/-- interface.py line 173: `self.predict_durations = [[0, 0]] * len(fn)` —
one inner `[0, 0]` list, `n` references to it. -/
def initDurations (n : ℕ) : DurationState :=
  { cells := [(0, 0)], ptrs := List.replicate n 0 }

/-- The orchestrator state assembled by `Interface.__init__` (the fields the
claims depend on; presentation-only fields such as `title`, `theme` or
`css` are omitted).  `dyn_attrs` holds attributes assigned *outside*
`__init__`; `__init__` assigns none, so a fresh interface has `dyn_attrs =
[]` — in particular neither `self.config` (line 418) nor `self.interface`
(line 449) exists on a freshly constructed object. -/
structure Interface where
  predict : List (List PyVal → PyVal)
  input_components : List InputComponent
  output_components : List OutputComponent
  interpretation : InterpArg
  predict_durations : DurationState
  allow_flagging : String
  flagging_options : Option (List String)
  api_mode : Bool
  dyn_attrs : List (String × PyVal)

/-- `Interface.__init__` (interface.py lines 91-314), restricted to the
orchestration-relevant parameters; `fn`, `inputs` and `outputs` are taken
already in list form (the non-list overloads are wrapped to singleton lists
at lines 153-158 before any of the modelled logic runs), and components are
taken already materialized (`get_input_instance` / `get_output_instance`
from the missing `inputs.py`/`outputs.py` resolve each entry elementwise,
preserving order and length).  Modelled steps, in source order:
output auto-repeat (lines 160-163), interpretation normalization (165-170),
duration-accumulator allocation (173), allow-flagging normalization
(232-254), `self.flagging_options` (256), and `self.api_mode = False`
(295). -/
def Interface.init (fn : List (List PyVal → PyVal))
    (inputs : List InputComponent) (outputs : List OutputComponent)
    (interpretation : InterpArg) (repeat_outputs_per_model : Bool)
    (allow_flagging : PyVal) (envAllowFlagging : Option String)
    (flagging_options : Option (List String)) : Except PyErr Interface := do
  let input_components := inputs
  let output_components := outputs
  -- lines 162-163: if repeat_outputs_per_model: self.output_components *= len(fn)
  let output_components := if repeat_outputs_per_model
    then (List.replicate fn.length output_components).flatten
    else output_components
  let interp ← resolveInterpretation interpretation input_components
  let af ← resolveAllowFlagging envAllowFlagging allow_flagging
  Except.ok
    { predict := fn
      input_components := input_components
      output_components := output_components
      interpretation := interp
      predict_durations := initDurations fn.length
      allow_flagging := af
      flagging_options := flagging_options
      api_mode := false
      dyn_attrs := [] }

/-- Python iteration over a value, as used by `predictions.extend(prediction)`
at interface.py line 382: lists yield their elements, strings their
characters, dicts their keys; other values raise `TypeError`. -/
def pyIterate : PyVal → Except PyErr (List PyVal)
  | PyVal.list xs => Except.ok xs
  | PyVal.str s => Except.ok (s.toList.map (fun c => PyVal.str (String.singleton c)))
  | PyVal.dict kvs => Except.ok (kvs.map (fun kv => PyVal.str kv.1))
  | _ => Except.error (PyErr.typeError "object is not iterable")

/-- interface.py lines 360-361: the api-mode serialization comprehension
`[ic.serialize(processed_input[i], called_directly) for i, ic in
enumerate(self.input_components)]`, with `i` starting at `i0`. -/
def serializeLoop (ics : List InputComponent) (processed_input : List PyVal)
    (called_directly : Bool) (i0 : ℕ) : Except PyErr (List PyVal) :=
  match ics with
  | [] => Except.ok []
  | ic :: rest => do
      let v ← pyIndex processed_input i0
      let others ← serializeLoop rest processed_input called_directly (i0 + 1)
      Except.ok (ic.serialize v called_directly :: others)

/-- interface.py lines 375-379: the api-mode deserialization loop, walking
`output_component_counter` across the flat output-component list. -/
def deserializeLoop (ocs : List OutputComponent) (preds : List PyVal) (occ : ℕ) :
    Except PyErr (List PyVal × ℕ) :=
  match preds with
  | [] => Except.ok ([], occ)
  | p :: rest => do
      let oc ← pyIndex ocs occ
      let (others, occ2) ← deserializeLoop ocs rest (occ + 1)
      Except.ok (oc.deserialize p :: others, occ2)

/-- interface.py lines 366-382: the `for predict_fn in self.predict` loop of
`run_prediction`.  `idx` is the position of the next function (used to draw
its wall-clock duration from the oracle `durO`), `occ` is
`output_component_counter`.  Per iteration: call the function on the full
processed argument list; if the number of output components equals the
number of functions, wrap the single return value as a one-element list,
otherwise `predictions.extend(prediction)` iterates the returned value;
api mode additionally deserializes each prediction. -/
def Interface.runPredLoop (itf : Interface) (processed_input : List PyVal)
    (durO : ℕ → ℚ) (fns : List (List PyVal → PyVal)) (idx : ℕ) (occ : ℕ) :
    Except PyErr (List PyVal × List ℚ × ℕ) :=
  match fns with
  | [] => Except.ok ([], [], occ)
  | f :: rest => do
      let prediction := f processed_input
      let duration := durO idx
      let preds ← if itf.output_components.length = itf.predict.length
        then Except.ok [prediction]
        else pyIterate prediction
      let (preds2, occ2) ← if itf.api_mode
        then deserializeLoop itf.output_components preds occ
        else Except.ok (preds, occ)
      let (restPreds, restDurs, occ3) ←
        itf.runPredLoop processed_input durO rest (idx + 1) occ2
      Except.ok (preds2 ++ restPreds, duration :: restDurs, occ3)

/-- `Interface.run_prediction` (interface.py lines 341-387): api-mode
serialization of the processed inputs, then the prediction loop.  The
Python `return_duration` flag only selects how much of the
`(predictions, durations)` pair is returned; the embedding returns both and
lets each caller project. -/
def Interface.run_prediction (itf : Interface) (processed_input : List PyVal)
    (durO : ℕ → ℚ) (called_directly : Bool) :
    Except PyErr (List PyVal × List ℚ) := do
  let processed_input ← if itf.api_mode
    then serializeLoop itf.input_components processed_input called_directly 0
    else Except.ok processed_input
  let (predictions, durations, _) ← itf.runPredLoop processed_input durO itf.predict 0 0
  Except.ok (predictions, durations)

/-- interface.py lines 404-406: `[ic.preprocess(raw_input[i]) for i, ic in
enumerate(self.input_components)]`, with `i` starting at `i0`. -/
def preprocessLoop (ics : List InputComponent) (raw_input : List PyVal) (i0 : ℕ) :
    Except PyErr (List PyVal) :=
  match ics with
  | [] => Except.ok []
  | ic :: rest => do
      let v ← pyIndex raw_input i0
      let others ← preprocessLoop rest raw_input (i0 + 1)
      Except.ok (ic.preprocess v :: others)

/-- interface.py lines 409-410: `[oc.postprocess(predictions[i]) if
predictions[i] is not None else None for i, oc in
enumerate(self.output_components)]`, with `i` starting at `i0`. -/
def postprocessLoop (ocs : List OutputComponent) (predictions : List PyVal) (i0 : ℕ) :
    Except PyErr (List PyVal) :=
  match ocs with
  | [] => Except.ok []
  | oc :: rest => do
      let v ← pyIndex predictions i0
      let others ← postprocessLoop rest predictions (i0 + 1)
      Except.ok ((match v with
        | PyVal.none => PyVal.none
        | v => oc.postprocess v) :: others)

/-- interface.py lines 412-417: the duration-statistics loop of `process`.
For the `i`-th duration it performs `self.predict_durations[i][0] +=
duration; self.predict_durations[i][1] += 1` through the reference stored at
position `i` (all of which alias one cell after `__init__`, see
`initDurations`) and appends `sum / count`, read back after the increment,
to `avg_durations`.  Returns the updated heap together with the
`avg_durations` list. -/
def durStatsLoop (ds : DurationState) (durations : List ℚ) (i0 : ℕ) :
    Except PyErr (DurationState × List ℚ) :=
  match durations with
  | [] => Except.ok (ds, [])
  | d :: rest => do
      let p ← pyIndex ds.ptrs i0
      let sc ← pyIndex ds.cells p
      let cells := ds.cells.set p (sc.1 + d, sc.2 + 1)
      let sc2 ← pyIndex cells p
      let (ds2, avgs) ← durStatsLoop { cells := cells, ptrs := ds.ptrs } rest (i0 + 1)
      Except.ok (ds2, (sc2.1 / (sc2.2 : ℚ)) :: avgs)

/-- The 4-tuple returned by `process` (interface.py line 421). -/
structure ProcessResult where
  processed_output : List PyVal
  durations : List ℚ
  processed_input : List PyVal
  predictions : List PyVal

/-- `self.config["avg_durations"] = avg_durations` guarded by
`hasattr(self, "config")` (interface.py lines 418-419): a no-op unless a
`config` attribute was assigned to the instance (which `__init__` never
does). -/
def setConfigAvg (attrs : List (String × PyVal)) (avgs : List ℚ) :
    List (String × PyVal) :=
  match attrs.lookup "config" with
  | Option.none => attrs
  | some (PyVal.dict kvs) =>
      attrs.map (fun kv => if kv.1 = "config"
        then ("config", PyVal.dict (kvs.filter (fun e => e.1 ≠ "avg_durations")
          ++ [("avg_durations", PyVal.list (avgs.map PyVal.float))]))
        else kv)
  | some _ => attrs

/-- `Interface.process` (interface.py lines 389-421): preprocess each raw
input through its input component, run the prediction loop, postprocess each
prediction through its output component (passing `None` through untouched),
update the duration statistics, and return the 4-tuple
`(processed_output, durations, processed_input, predictions)` together with
the mutated interface state. -/
def Interface.process (itf : Interface) (raw_input : List PyVal) (durO : ℕ → ℚ) :
    Except PyErr (ProcessResult × Interface) := do
  let processed_input ← preprocessLoop itf.input_components raw_input 0
  let (predictions, durations) ← itf.run_prediction processed_input durO false
  let processed_output ← postprocessLoop itf.output_components predictions 0
  let (ds, avg_durations) ← durStatsLoop itf.predict_durations durations 0
  let itf2 := { itf with
    predict_durations := ds
    dyn_attrs := setConfigAvg itf.dyn_attrs avg_durations }
  Except.ok ({ processed_output := processed_output
               durations := durations
               processed_input := processed_input
               predictions := predictions }, itf2)

/-- One slot of a Python tuple whose elements are value lists or duration
lists; used to model tuple destructuring of the `process` return value. -/
inductive TupleItem where
  | vals (xs : List PyVal) : TupleItem
  | durs (ds : List ℚ) : TupleItem

/-- The `process` return value viewed as the Python 4-tuple it is. -/
def ProcessResult.toTuple (r : ProcessResult) : List TupleItem :=
  [TupleItem.vals r.processed_output, TupleItem.durs r.durations,
   TupleItem.vals r.processed_input, TupleItem.vals r.predictions]

/-- Python destructuring of a tuple into exactly two targets
(`output, _ = ...`): raises `ValueError` unless the tuple has exactly two
items. -/
def pyUnpack2 {α : Type} (xs : List α) : Except PyErr (α × α) :=
  match xs with
  | [a, b] => Except.ok (a, b)
  | [] => Except.error (PyErr.valueError "not enough values to unpack (expected 2)")
  | [_] => Except.error (PyErr.valueError "not enough values to unpack (expected 2)")
  | _ => Except.error (PyErr.valueError "too many values to unpack (expected 2)")

/-- `Interface.__call__` (interface.py lines 316-321).  In api mode the
predictions of `run_prediction(params, called_directly=True)` become
`output`; otherwise `output, _ = self.process(params)` destructures the
4-tuple returned by `process` into two targets.  Finally
`output[0] if len(output) == 1 else output`. -/
def Interface.call (itf : Interface) (params : List PyVal) (durO : ℕ → ℚ) :
    Except PyErr PyVal := do
  let output ← (if itf.api_mode then do
      let (preds, _) ← itf.run_prediction params durO true
      Except.ok preds
    else do
      let (r, _) ← itf.process params durO
      let (o, _) ← pyUnpack2 r.toTuple
      match o with
      | TupleItem.vals xs => Except.ok xs
      | TupleItem.durs _ => Except.ok [])
  if output.length = 1 then pyIndex output 0 else Except.ok (PyVal.list output)

/-- Python attribute lookup on an interface for a name `__init__` does not
assign (every attribute `__init__` assigns is a structure field; anything
else lives in `dyn_attrs`): raises `AttributeError` when absent. -/
def Interface.getattr (itf : Interface) (name : String) : Except PyErr PyVal :=
  match itf.dyn_attrs.lookup name with
  | some v => Except.ok v
  | Option.none => Except.error
      (PyErr.attributeError ("Interface object has no attribute " ++ name))

/-- The flagging sink collaborator (`self.flagging_callback`; `flagging.py`
is not part of the sources).  `flag` receives exactly the arguments
interface.py line 449-451 passes: the value of `self.interface`, the raw
inputs, the predictions, the flag option and the username, and returns a
flag index. -/
structure FlagSink where
  flag : PyVal → List PyVal → List PyVal → Option String → Option String → PyVal

/-- `Interface.predict_fn` (interface.py lines 444-458).  Looks up
`data["data"]`, runs `process`, and — only when `self.allow_flagging ==
"auto"` — evaluates `self.flagging_callback.flag(self.interface, raw_input,
prediction, flag_option=..., username=None)`; note that evaluating the
argument `self.interface` is an attribute lookup on the interface object.
Returns the response dict (`data`, `durations`, `avg_durations` from the
passed-in config, `flag_index`) together with `raw_in` and `raw_out`. -/
def Interface.predict_fn (itf : Interface) (sink : FlagSink)
    (data : List (String × PyVal)) (config : List (String × PyVal))
    (durO : ℕ → ℚ) :
    Except PyErr (List (String × PyVal) × List PyVal × List PyVal × Interface) := do
  let raw_input_v ← match data.lookup "data" with
    | some v => Except.ok v
    | Option.none => Except.error (PyErr.keyError "data")
  -- `process` subscripts raw_input by integer index; non-list payloads are
  -- outside the modelled fragment.
  let raw_input ← match raw_input_v with
    | PyVal.list xs => Except.ok xs
    | _ => Except.error (PyErr.typeError "raw_input is not subscriptable")
  let (r, itf2) ← itf.process raw_input durO
  let flag_index ← if itf.allow_flagging = "auto" then do
      let iv ← itf.getattr "interface"
      Except.ok (some (sink.flag iv raw_input r.processed_output
        (match itf.flagging_options with
         | Option.none => Option.none
         | some _ => some "") Option.none))
    else Except.ok Option.none
  let output := [("data", PyVal.list r.processed_output),
                 ("durations", PyVal.list (r.durations.map PyVal.float)),
                 ("avg_durations", (config.lookup "avg_durations").getD PyVal.none),
                 ("flag_index", (flag_index.getD PyVal.none))]
  Except.ok (output, r.processed_input, r.predictions, itf2)

/-! ## external.py — remote descriptor loaders

`json.loads` is embedded as an executable recursive-descent parser over the
character list (fuelled by the input length; strict about trailing data,
lenient about leading zeros), producing `PyVal` values.  The braces used by
JSON object syntax are handled through named characters. -/

/-- The `LEFT CURLY BRACKET` character. -/
def lbraceC : Char := Char.ofNat 123

/-- The `RIGHT CURLY BRACKET` character. -/
def rbraceC : Char := Char.ofNat 125

/-- JSON insignificant whitespace. -/
def isJsonWs (c : Char) : Bool := c == ' ' || c == '\t' || c == '\n' || c == '\r'

/-- Drop leading JSON whitespace. -/
def skipWs : List Char → List Char
  | c :: rest => if isJsonWs c then skipWs rest else c :: rest
  | [] => []

/-- Numeric value of a decimal digit character. -/
def digitVal (c : Char) : ℕ := c.toNat - 48

/-- Split off a maximal run of leading decimal digits. -/
def takeDigits : List Char → List Char × List Char
  | c :: rest =>
      if c.isDigit then
        let (ds, r) := takeDigits rest
        (c :: ds, r)
      else ([], c :: rest)
  | [] => ([], [])

/-- Value of a digit run. -/
def digitsToNat (ds : List Char) : ℕ := ds.foldl (fun a c => 10 * a + digitVal c) 0

/-- Parse an exponent part (after the `e`/`E`): optional sign then digits. -/
def parseExpPart (cs : List Char) : Option (ℤ × List Char) :=
  let (sgn, cs1) : ℤ × List Char := match cs with
    | '+' :: r => (1, r)
    | '-' :: r => (-1, r)
    | _ => (1, cs)
  let (ds, cs2) := takeDigits cs1
  if ds.isEmpty then Option.none else some (sgn * (digitsToNat ds : ℤ), cs2)

/-- Parse a JSON number: `-?digits(.digits)?((e|E)sign?digits)?`. -/
def parseJNumber (cs : List Char) : Option (ℚ × List Char) := do
  let (neg, cs1) : Bool × List Char := match cs with
    | '-' :: r => (true, r)
    | _ => (false, cs)
  let (ints, cs2) := takeDigits cs1
  if ints.isEmpty then Option.none else do
  let (fq, cs3) ← (match cs2 with
    | '.' :: r =>
        let (ds, r2) := takeDigits r
        if ds.isEmpty then Option.none
        else some (((digitsToNat ds : ℚ) / (10 : ℚ) ^ ds.length, r2))
    | _ => some ((0 : ℚ), cs2))
  let (ex, cs4) ← (match cs3 with
    | 'e' :: r => parseExpPart r
    | 'E' :: r => parseExpPart r
    | _ => some ((0 : ℤ), cs3))
  let base : ℚ := (digitsToNat ints : ℚ) + fq
  let signed := if neg then -base else base
  some (signed * (10 : ℚ) ^ ex, cs4)

/-- Value of a hexadecimal digit character. -/
def hexVal (c : Char) : Option ℕ :=
  if c.isDigit then some (c.toNat - 48)
  else if 'a' ≤ c ∧ c ≤ 'f' then some (c.toNat - 87)
  else if 'A' ≤ c ∧ c ≤ 'F' then some (c.toNat - 55)
  else Option.none

/-- Decoded character of a single-character JSON escape. -/
def simpleEscape (e : Char) : Option Char :=
  if e = '"' then some '"'
  else if e = '\\' then some '\\'
  else if e = '/' then some '/'
  else if e = 'b' then some (Char.ofNat 8)
  else if e = 'f' then some (Char.ofNat 12)
  else if e = 'n' then some '\n'
  else if e = 'r' then some '\r'
  else if e = 't' then some '\t'
  else Option.none

/-- Parse the remainder of a JSON string (after the opening quote), decoding
the standard escapes. -/
def parseJString : List Char → Option (String × List Char)
  | [] => Option.none
  | c :: rest =>
    if c = '"' then some ("", rest)
    else if c = '\\' then
      match rest with
      | 'u' :: h1 :: h2 :: h3 :: h4 :: rest3 =>
          (match hexVal h1, hexVal h2, hexVal h3, hexVal h4 with
           | some v1, some v2, some v3, some v4 =>
               (match parseJString rest3 with
                | some (s, r2) =>
                    some (String.singleton
                      (Char.ofNat (((v1 * 16 + v2) * 16 + v3) * 16 + v4)) ++ s, r2)
                | Option.none => Option.none)
           | _, _, _, _ => Option.none)
      | e :: rest2 =>
          (match simpleEscape e with
           | some ch =>
               (match parseJString rest2 with
                | some (s, r2) => some (String.singleton ch ++ s, r2)
                | Option.none => Option.none)
           | Option.none => Option.none)
      | [] => Option.none
    else
      match parseJString rest with
      | some (s, r2) => some (String.singleton c ++ s, r2)
      | Option.none => Option.none

mutual

/-- Parse one JSON value (fuelled). -/
def parseJVal : ℕ → List Char → Except PyErr (PyVal × List Char)
  | 0, _ => Except.error (PyErr.jsonDecodeError "too deeply nested")
  | fuel + 1, cs =>
    match skipWs cs with
    | [] => Except.error (PyErr.jsonDecodeError "Expecting value")
    | c :: rest =>
      if c = lbraceC then
        match skipWs rest with
        | c2 :: r3 =>
            if c2 = rbraceC then Except.ok (PyVal.dict [], r3)
            else do
              let (kvs, r4) ← parseJMembers fuel (c2 :: r3)
              Except.ok (PyVal.dict kvs, r4)
        | [] => Except.error (PyErr.jsonDecodeError "Expecting property name")
      else if c = '[' then
        match skipWs rest with
        | ']' :: r3 => Except.ok (PyVal.list [], r3)
        | r2 => do
            let (xs, r3) ← parseJItems fuel r2
            Except.ok (PyVal.list xs, r3)
      else if c = '"' then
        match parseJString rest with
        | some (s, r2) => Except.ok (PyVal.str s, r2)
        | Option.none => Except.error (PyErr.jsonDecodeError "Invalid string")
      else if c = 't' then
        match rest with
        | 'r' :: 'u' :: 'e' :: r2 => Except.ok (PyVal.bool true, r2)
        | _ => Except.error (PyErr.jsonDecodeError "Expecting value")
      else if c = 'f' then
        match rest with
        | 'a' :: 'l' :: 's' :: 'e' :: r2 => Except.ok (PyVal.bool false, r2)
        | _ => Except.error (PyErr.jsonDecodeError "Expecting value")
      else if c = 'n' then
        match rest with
        | 'u' :: 'l' :: 'l' :: r2 => Except.ok (PyVal.none, r2)
        | _ => Except.error (PyErr.jsonDecodeError "Expecting value")
      else
        match parseJNumber (c :: rest) with
        | some (q, r2) => Except.ok (PyVal.float q, r2)
        | Option.none => Except.error (PyErr.jsonDecodeError "Expecting value")

/-- Parse the comma-separated items of a non-empty JSON array, including the
closing bracket (fuelled). -/
def parseJItems : ℕ → List Char → Except PyErr (List PyVal × List Char)
  | 0, _ => Except.error (PyErr.jsonDecodeError "too deeply nested")
  | fuel + 1, cs => do
      let (v, r) ← parseJVal fuel cs
      match skipWs r with
      | ',' :: r2 => do
          let (vs, r3) ← parseJItems fuel r2
          Except.ok (v :: vs, r3)
      | ']' :: r2 => Except.ok ([v], r2)
      | _ => Except.error (PyErr.jsonDecodeError "Expecting comma delimiter")

/-- Parse the members of a non-empty JSON object, including the closing
brace (fuelled). -/
def parseJMembers : ℕ → List Char → Except PyErr (List (String × PyVal) × List Char)
  | 0, _ => Except.error (PyErr.jsonDecodeError "too deeply nested")
  | fuel + 1, cs =>
    match skipWs cs with
    | '"' :: r =>
      match parseJString r with
      | some (k, r2) =>
        (match skipWs r2 with
         | ':' :: r3 => do
             let (v, r4) ← parseJVal fuel r3
             match skipWs r4 with
             | ',' :: r5 => do
                 let (kvs, r6) ← parseJMembers fuel r5
                 Except.ok ((k, v) :: kvs, r6)
             | c5 :: r5 =>
                 if c5 = rbraceC then Except.ok ([(k, v)], r5)
                 else Except.error (PyErr.jsonDecodeError "Expecting comma delimiter")
             | [] => Except.error (PyErr.jsonDecodeError "Expecting comma delimiter")
         | _ => Except.error (PyErr.jsonDecodeError "Expecting colon delimiter"))
      | Option.none => Except.error (PyErr.jsonDecodeError "Invalid string")
    | _ => Except.error (PyErr.jsonDecodeError "Expecting property name")

end

/-- `json.loads`: parse one JSON document, rejecting trailing data. -/
def jsonLoads (s : String) : Except PyErr PyVal := do
  let cs := s.toList
  let (v, rest) ← parseJVal (cs.length + 2) cs
  match skipWs rest with
  | [] => Except.ok v
  | _ => Except.error (PyErr.jsonDecodeError "Extra data")

/-- The non-greedy capture of `(.*?);\n`: scan forward collecting characters
until the first `;` immediately followed by a newline; since `.` does not
match a newline, hitting a bare newline first means no match from this
start position. -/
def captureBody : List Char → Option (List Char × List Char)
  | ';' :: '\n' :: rest => some ([], rest)
  | '\n' :: _ => Option.none
  | c :: rest =>
      match captureBody rest with
      | some (cap, r) => some (c :: cap, r)
      | Option.none => Option.none
  | [] => Option.none

/-- Try to match the pattern `window.config =(.*?);\n` (external.py line
214) at the head of the character list: the literal `window`, one arbitrary
non-newline character for the `.`, the literal `config =`, then the
non-greedy capture up to `;\n`.  Returns the captured group. -/
def matchWindowConfigAt (cs : List Char) : Option (List Char) :=
  match cs with
  | 'w' :: 'i' :: 'n' :: 'd' :: 'o' :: 'w' :: c :: 'c' :: 'o' :: 'n' :: 'f' :: 'i' :: 'g' :: ' ' :: '=' :: rest =>
      if c = '\n' then Option.none
      else (captureBody rest).map (fun p => p.1)
  | _ => Option.none

/-- `re.search`: try the pattern at every start position, leftmost first. -/
def reSearchAux : List Char → Option (List Char)
  | [] => Option.none
  | c :: rest =>
      match matchWindowConfigAt (c :: rest) with
      | some cap => some cap
      | Option.none => reSearchAux rest

/-- `re.search('window.config =(.*?);\n', text)`, returning `group(1)` when
a match exists. -/
def reSearchWindowConfig (text : String) : Option String :=
  (reSearchAux text.toList).map (fun cs => String.mk cs)

/-- Modelled from the spec: `get_input_instance` (missing `inputs.py`)
materializes one input component from its configuration entry; here the
configuration entry itself stands for the materialized component. -/
def get_input_instance_m (component : PyVal) : PyVal := component

/-- Modelled from the spec: `get_output_instance` (missing `outputs.py`),
as for `get_input_instance_m`. -/
def get_output_instance_m (component : PyVal) : PyVal := component

/-- Python subscript `v[k]` with a string key: `KeyError` for a dict missing
the key, `TypeError` for non-dicts. -/
def dictSubscript (v : PyVal) (k : String) : Except PyErr PyVal :=
  match v with
  | PyVal.dict kvs =>
      match kvs.lookup k with
      | some x => Except.ok x
      | Option.none => Except.error (PyErr.keyError k)
  | _ => Except.error (PyErr.typeError "indices must be integers")

/-- Python dict item assignment `d[k] = v` (replace in place, or append). -/
def assocSet (kvs : List (String × PyVal)) (k : String) (v : PyVal) :
    List (String × PyVal) :=
  if (kvs.lookup k).isSome then kvs.map (fun e => if e.1 = k then (k, v) else e)
  else kvs ++ [(k, v)]

/-- The key set filtered by `interface_params_from_config`
(external.py lines 199-202). -/
def spacesParamKeys : List String :=
  ["allow_flagging", "allow_screenshot", "article", "description",
   "flagging_options", "inputs", "outputs", "show_input", "show_output",
   "theme", "title"]

/-- `interface_params_from_config` (external.py lines 195-204): materialize
`inputs`/`outputs` from the `input_components`/`output_components` entries,
then keep exactly the parameter keys (raising `KeyError` on any missing
one). -/
def interface_params_from_config (config : PyVal) :
    Except PyErr (List (String × PyVal)) := do
  let inComps ← dictSubscript config "input_components"
  let inEntries ← pyIterate inComps
  let outComps ← dictSubscript config "output_components"
  let outEntries ← pyIterate outComps
  let kvs := match config with
    | PyVal.dict kvs => kvs
    | _ => []
  let kvs := assocSet kvs "inputs" (PyVal.list (inEntries.map get_input_instance_m))
  let kvs := assocSet kvs "outputs" (PyVal.list (outEntries.map get_output_instance_m))
  let pairs ← spacesParamKeys.mapM (fun k => do
      let v ← dictSubscript (PyVal.dict kvs) k
      Except.ok (k, v))
  Except.ok pairs

/-- `get_spaces_interface` (external.py lines 206-233), scrape-based
descriptor loading, as a function of the fetched page body: search the page
text for the `window.config =` assignment (a failed search leaves `result =
None`, so `result.group(1)` raises `AttributeError`), `json.loads` the
captured group, and build the descriptor parameters from the parsed config.
The produced prediction closure (lines 219-231) takes no part in descriptor
construction and is not modelled. -/
def get_spaces_interface (pageText : String) :
    Except PyErr (List (String × PyVal)) := do
  let g ← match reSearchWindowConfig pageText with
    | some g => Except.ok g
    | Option.none =>
        Except.error (PyErr.attributeError "NoneType object has no attribute group")
  let config ← jsonLoads g
  interface_params_from_config config

/-- The task-type keys of the fixed `pipelines` table of
`get_huggingface_interface` (external.py lines 30-152). -/
def hfPipelineKeys : List String :=
  ["audio-classification", "automatic-speech-recognition", "feature-extraction",
   "fill-mask", "image-classification", "question-answering", "summarization",
   "text-classification", "text-generation", "text2text-generation",
   "translation", "zero-shot-classification", "sentence-similarity",
   "text-to-speech", "text-to-image"]

/-- The metadata `GET` response: HTTP status and the JSON object body. -/
structure HFMetaResponse where
  status_code : ℕ
  json : List (String × PyVal)

/-- Whether `p = response.json().get('pipeline_tag')` passes the
`p is None or not (p in pipelines)` gate (only string tags can be keys of
the table). -/
def hfTagSupported (p : Option PyVal) : Bool :=
  match p with
  | some (PyVal.str s) => hfPipelineKeys.contains s
  | _ => false

/-- The descriptor-building part of `get_huggingface_interface`
(external.py lines 9-22 and 154-157), as a function of the metadata
response: assert HTTP 200, read `pipeline_tag`, and require it to be a key
of the fixed table, raising `ValueError` otherwise.  The result is the
resolved task key (standing for the selected `pipelines[p]` entry, whose
component instances live in the missing `inputs.py`/`outputs.py`). -/
def get_huggingface_interface (r : HFMetaResponse) : Except PyErr String :=
  if r.status_code ≠ 200 then
    Except.error (PyErr.assertionError "Invalid model name or src")
  else
    match r.json.lookup "pipeline_tag" with
    | some (PyVal.str s) =>
        if hfPipelineKeys.contains s then Except.ok s
        else Except.error (PyErr.valueError "Unsupported pipeline type")
    | _ => Except.error (PyErr.valueError "Unsupported pipeline type")

mutual

/-- `json.dumps` over the embedded values (string escaping not modelled). -/
def jsonDumps : PyVal → String
  | PyVal.none => "null"
  | PyVal.bool true => "true"
  | PyVal.bool false => "false"
  | PyVal.int n => toString n
  | PyVal.float q => toString q
  | PyVal.str s => "\"" ++ s ++ "\""
  | PyVal.list xs => "[" ++ jsonDumpsItems xs ++ "]"
  | PyVal.dict kvs =>
      String.singleton lbraceC ++ jsonDumpsMembers kvs ++ String.singleton rbraceC

/-- Comma-join the serialized items of a list. -/
def jsonDumpsItems : List PyVal → String
  | [] => ""
  | [x] => jsonDumps x
  | x :: rest => jsonDumps x ++ ", " ++ jsonDumpsItems rest

/-- Comma-join the serialized members of a dict. -/
def jsonDumpsMembers : List (String × PyVal) → String
  | [] => ""
  | [(k, v)] => "\"" ++ k ++ "\": " ++ jsonDumps v
  | (k, v) :: rest => "\"" ++ k ++ "\": " ++ jsonDumps v ++ ", " ++ jsonDumpsMembers rest

end

/-- An inference `POST` response: HTTP status and decoded body. -/
structure HttpResponse where
  status_code : ℕ
  body : PyVal

/-- external.py lines 162-164: dict payloads get
`options (wait_for_model = True)` added and are `json.dumps`-serialized;
other payloads (raw binary) are sent as-is. -/
def hfPreparePayload (data : PyVal) : PyVal :=
  match data with
  | PyVal.dict kvs => PyVal.str (jsonDumps (PyVal.dict (assocSet kvs "options"
      (PyVal.dict [("wait_for_model", PyVal.bool true)]))))
  | d => d

/-- `query_huggingface_api` (external.py lines 159-169), the callable the
registry-based loader produces, parametrized by the selected task entry's
`preprocess`/`postprocess` closures and by the remote endpoint (`doPost`
maps the sent payload to the HTTP response): preprocess the arguments,
prepare the wire payload, `POST` it, raise `ValueError` carrying the status
on any non-200 response, and postprocess the response otherwise. -/
def query_huggingface_api (pre : List PyVal → PyVal) (post : HttpResponse → PyVal)
    (doPost : PyVal → HttpResponse) (params : List PyVal) : Except PyErr PyVal :=
  let data := pre params
  let payload := hfPreparePayload data
  let response := doPost payload
  if response.status_code ≠ 200 then
    Except.error (PyErr.valueError
      ("Could not complete request to HuggingFace API, Error "
        ++ toString response.status_code))
  else Except.ok (post response)

/-! ## external_models/vanderpol.py — defensive parameter coercion

The stand-alone `simulate` script's parameter handling (lines 10-107 and the
`t_eval` handling at 77-94), accumulating its diagnostic `messages` list.
The ODE integration itself (`solve_ivp`) is an opaque external dependency,
passed in as an outcome oracle; the vector-field grids, nullclines and
plotting (pure numpy/matplotlib rendering, lines 108-243) do not affect the
coerced parameters or the messages recorded for them and are omitted. -/

/-- Python `float(str)` on its numeric-literal forms: optional surrounding
whitespace, optional sign, digits with optional fraction and exponent
(`inf`/`nan` literals not modelled). -/
def pyParseFloat (s : String) : Option ℚ := do
  let cs := s.toList.dropWhile isJsonWs
  let cs := (cs.reverse.dropWhile isJsonWs).reverse
  let (sgn, cs1) : ℚ × List Char := match cs with
    | '+' :: r => (1, r)
    | '-' :: r => (-1, r)
    | _ => (1, cs)
  let (ints, cs2) := takeDigits cs1
  let (fr, cs3) : Option (List Char) × List Char := match cs2 with
    | '.' :: r =>
        let (ds, r2) := takeDigits r
        (some ds, r2)
    | _ => (Option.none, cs2)
  if ints.isEmpty && (match fr with | some ds => ds.isEmpty | Option.none => true) then
    Option.none
  else do
  let (ex, cs4) ← (match cs3 with
    | 'e' :: r => parseExpPart r
    | 'E' :: r => parseExpPart r
    | _ => some ((0 : ℤ), cs3))
  match cs4 with
  | [] =>
      let fracPart : ℚ := match fr with
        | some ds => (digitsToNat ds : ℚ) / (10 : ℚ) ^ ds.length
        | Option.none => 0
      some (sgn * ((digitsToNat ints : ℚ) + fracPart) * (10 : ℚ) ^ ex)
  | _ => Option.none

/-- Python `int(str)`: optional surrounding whitespace, optional sign,
digits only. -/
def pyParseInt (s : String) : Option ℤ := do
  let cs := s.toList.dropWhile isJsonWs
  let cs := (cs.reverse.dropWhile isJsonWs).reverse
  let (sgn, cs1) : ℤ × List Char := match cs with
    | '+' :: r => (1, r)
    | '-' :: r => (-1, r)
    | _ => (1, cs)
  let (ds, cs2) := takeDigits cs1
  if ds.isEmpty then Option.none
  else match cs2 with
    | [] => some (sgn * (digitsToNat ds : ℤ))
    | _ => Option.none

/-- Python `float(v)`: succeeds on numbers, booleans and numeric strings;
raises (here: `Option.none`) on `None`, lists, dicts and non-numeric
strings. -/
def pyFloat : PyVal → Option ℚ
  | PyVal.int n => some (n : ℚ)
  | PyVal.float q => some q
  | PyVal.bool b => some (if b then 1 else 0)
  | PyVal.str s => pyParseFloat s
  | _ => Option.none

/-- Python `int(v)`: ints, booleans, floats (truncation toward zero) and
integer-literal strings; raises otherwise. -/
def pyInt : PyVal → Option ℤ
  | PyVal.int n => some n
  | PyVal.float q => some (if 0 ≤ q then q.floor else -((-q).floor))
  | PyVal.bool b => some (if b then 1 else 0)
  | PyVal.str s => pyParseInt s
  | _ => Option.none

/-- `simulate._to_float` (vanderpol.py lines 12-23): `None` gives the
default; for sequences, `float` of the first element (an empty or
non-numeric sequence falls back to the default); otherwise `float(v)`,
falling back to the default on failure.  No diagnostic message is ever
recorded. -/
def toFloatD (v : PyVal) (dflt : ℚ) : ℚ :=
  match v with
  | PyVal.none => dflt
  | PyVal.list xs =>
      match xs with
      | [] => dflt
      | x :: _ => (pyFloat x).getD dflt
  | x => (pyFloat x).getD dflt

/-- `simulate._to_int` (vanderpol.py lines 24-35), analogous to
`_to_float`. -/
def toIntD (v : PyVal) (dflt : ℤ) : ℤ :=
  match v with
  | PyVal.none => dflt
  | PyVal.list xs =>
      match xs with
      | [] => dflt
      | x :: _ => (pyInt x).getD dflt
  | x => (pyInt x).getD dflt

/-- `params.get(k, dflt)` over the keyword-argument dict. -/
def paramsGet (params : List (String × PyVal)) (k : String) (dflt : PyVal) : PyVal :=
  (params.lookup k).getD dflt

/-- `np.linspace a b n` over the rationals. -/
def linspace (a b : ℚ) (n : ℕ) : List ℚ :=
  if n ≤ 1 then List.replicate n a
  else (List.range n).map (fun i => a + (b - a) * i / ((n : ℚ) - 1))

/-- `np.array(v, dtype=float)` as used by the `t_eval` handling:
`Except.error` models a raised conversion error (ragged or non-numeric
data); `Except.ok Option.none` a well-formed array of dimension other
than 1 (scalars, nested uniform lists); `Except.ok (some xs)` a
one-dimensional float array. -/
def npArrayFloat (v : PyVal) : Except Unit (Option (List ℚ)) :=
  match v with
  | PyVal.list xs =>
      (match xs.mapM pyFloat with
       | some qs => Except.ok (some qs)
       | Option.none =>
          (match xs.mapM (fun x => match x with
             | PyVal.list ys => ys.mapM pyFloat
             | _ => Option.none) with
           | some rows =>
              (match rows with
               | [] => Except.error ()
               | r :: rs =>
                   if rs.all (fun r2 => r2.length = r.length)
                   then Except.ok Option.none else Except.error ())
           | Option.none => Except.error ()))
  | PyVal.str s =>
      (match pyParseFloat s with
       | some _ => Except.ok Option.none
       | Option.none => Except.error ())
  | PyVal.int _ => Except.ok Option.none
  | PyVal.float _ => Except.ok Option.none
  | PyVal.bool _ => Except.ok Option.none
  | _ => Except.error ()

/-- The coerced simulation parameters together with the diagnostic
messages accumulated while coercing them. -/
structure VdpParams where
  eval_time : ℚ
  t_iteration : ℤ
  z0 : ℚ × ℚ
  mu : ℚ
  mgrid_size : ℚ
  grid_points : ℤ
  t_span : ℚ × ℚ
  t_eval : List ℚ
  messages : List String

/-- The parameter-coercion stage of `simulate` (vanderpol.py lines 37-94),
in source order: `eval_time` and `t_iteration` (scalar coercions with
silent fallback; too-small `t_iteration` clamped with a message), `z0`
(sequence parse with message on failure), `mu`, `mgrid_size`,
`grid_points` (silent scalar coercions; too-small `grid_points` reset with
a message), `t_span` (sequence parse with message on failure, then
end-after-start check with message), and `t_eval` (array conversion:
parse failure falls back to a linspace with a message; wrong dimension or
size silently falls back to the same linspace). -/
def vdpParse (params : List (String × PyVal)) : VdpParams :=
  let eval_time := toFloatD
    (paramsGet params "eval_time" (paramsGet params "t_final" (PyVal.float 100))) 100
  let t_iteration := toIntD (paramsGet params "t_iteration" (PyVal.int 1000)) 1000
  let msgs : List String := []
  let (t_iteration, msgs) := if t_iteration < 2
    then ((2 : ℤ), msgs ++ ["t_iteration too small; setting to 2"])
    else (t_iteration, msgs)
  let z0_param := paramsGet params "z0" (PyVal.list [PyVal.int 2, PyVal.int 0])
  let z0opt : Option (ℚ × ℚ) := match z0_param with
    | PyVal.list (a :: b :: _) =>
        (match pyFloat a, pyFloat b with
         | some x, some y => some (x, y)
         | _, _ => Option.none)
    | v =>
        (match pyFloat v with
         | some x => some (x, 0)
         | Option.none => Option.none)
  let (z0, msgs) := match z0opt with
    | some p => (p, msgs)
    | Option.none => (((2 : ℚ), (0 : ℚ)), msgs ++ ["z0 could not be parsed; using default [2,0]"])
  let mu := toFloatD (paramsGet params "mu" (PyVal.float 1)) 1
  let mgrid_size := toFloatD (paramsGet params "mgrid_size" (PyVal.float 8)) 8
  let grid_points := toIntD
    (paramsGet params "gridpoints" (paramsGet params "mgridsize" (PyVal.int 15))) 15
  let (grid_points, msgs) := if grid_points < 2
    then ((15 : ℤ), msgs ++ ["gridpoints too small; setting to 15"])
    else (grid_points, msgs)
  let t_span_param := paramsGet params "t_span" PyVal.none
  let (t_span, msgs) : (ℚ × ℚ) × List String := match t_span_param with
    | PyVal.none => (((0 : ℚ), eval_time), msgs)
    | PyVal.list (a :: b :: _) =>
        (match pyFloat a, pyFloat b with
         | some x, some y => ((x, y), msgs)
         | _, _ => (((0 : ℚ), eval_time),
             msgs ++ ["t_span could not be parsed; using [0, eval_time]"]))
    | v =>
        (match pyFloat v with
         | some x => (((0 : ℚ), x), msgs)
         | Option.none => (((0 : ℚ), eval_time),
             msgs ++ ["t_span could not be parsed; using [0, eval_time]"]))
  let (t_span, msgs) := if t_span.2 ≤ t_span.1
    then (((0 : ℚ), eval_time),
      msgs ++ ["t_span invalid (end <= start); adjusting to [0, eval_time]"])
    else (t_span, msgs)
  let t_eval_param := paramsGet params "t_eval" PyVal.none
  let (t_eval, msgs) : List ℚ × List String := match t_eval_param with
    | PyVal.none => (linspace t_span.1 t_span.2 t_iteration.toNat, msgs)
    | v =>
        (match npArrayFloat v with
         | Except.ok (some arr) =>
             if arr.length < 2
             then (linspace t_span.1 t_span.2 t_iteration.toNat, msgs)
             else (arr, msgs)
         | Except.ok Option.none => (linspace t_span.1 t_span.2 t_iteration.toNat, msgs)
         | Except.error _ => (linspace t_span.1 t_span.2 t_iteration.toNat,
             msgs ++ ["t_eval could not be parsed; using linspace"]))
  { eval_time := eval_time
    t_iteration := t_iteration
    z0 := z0
    mu := mu
    mgrid_size := mgrid_size
    grid_points := grid_points
    t_span := t_span
    t_eval := t_eval
    messages := msgs }

/-- vanderpol.py lines 125-136: optional `atol`/`rtol` solver arguments; a
present but non-coercible value is ignored with a message. -/
def vdpSolverMsgs (params : List (String × PyVal)) : List String :=
  (match params.lookup "atol" with
   | some v =>
      (match pyFloat v with
       | some _ => []
       | Option.none => ["atol could not be parsed; ignored"])
   | Option.none => []) ++
  (match params.lookup "rtol" with
   | some v =>
      (match pyFloat v with
       | some _ => []
       | Option.none => ["rtol could not be parsed; ignored"])
   | Option.none => [])

/-- The opaque outcome of the `solve_ivp` call: either an exception
(message) or a returned solution with its `success` flag. -/
structure OdeOracle where
  raises : Option String
  success : Bool

/-- The result dict of `simulate` (vanderpol.py lines 244-268), restricted
to the scalar parameter echoes and the diagnostics.  `messages` collects,
in order, the coercion messages, the `atol`/`rtol` messages, and the
solver-failure message when the solver raised. -/
structure VdpResult where
  success : Bool
  mu : ℚ
  z0 : ℚ × ℚ
  t_span : ℚ × ℚ
  t_eval_length : ℕ
  grid_points : ℤ
  mgrid_size : ℚ
  messages : List String

/-- `simulate(**params)` (vanderpol.py lines 1-268) as a function of the
keyword arguments and of the ODE-solver outcome: coerce the parameters,
collect the solver keyword messages, run the solver through the oracle, and
assemble the result dict.  `simulate` returns this dict on every coercion
path — it raises on no parameter value. -/
def simulate (ode : OdeOracle) (params : List (String × PyVal)) : VdpResult :=
  let p := vdpParse params
  let solverMsgs := vdpSolverMsgs params
  let (sol_success, extraMsgs) := match ode.raises with
    | some m => (false, ["ODE solver failed: " ++ m])
    | Option.none => (ode.success, ([] : List String))
  { success := sol_success
    mu := p.mu
    z0 := p.z0
    t_span := p.t_span
    t_eval_length := p.t_eval.length
    grid_points := p.grid_points
    mgrid_size := p.mgrid_size
    messages := p.messages ++ solverMsgs ++ extraMsgs }

/-! ## Concrete fixtures -/

/-- Modelled from the spec: a text (textbox) input component — `preprocess`
and `serialize` are the identity on the text value. -/
def textIn : InputComponent := { preprocess := fun v => v, serialize := fun v _ => v }

/-- Modelled from the spec: a text (textbox) output component —
`postprocess` and `deserialize` are the identity on the text value. -/
def textOut : OutputComponent := { postprocess := fun v => v, deserialize := fun v => v }

/-- The wrapped function of the end-to-end scenario: `fn(x) = x.upper()`. -/
def upperFn : List PyVal → PyVal
  | [PyVal.str s] => PyVal.str (pyUpper s)
  | _ => PyVal.none

/-- A wrapped function returning `None`. -/
def constNoneFn : List PyVal → PyVal := fun _ => PyVal.none

/-- A wall-clock oracle in which every function call takes 1 second. -/
def durO0 : ℕ → ℚ := fun _ => 1

/-- A wall-clock oracle in which the first function call of an invocation
takes 1 second and every later one 3 seconds. -/
def durO13 : ℕ → ℚ := fun i => if i = 0 then 1 else 3

/-- The orchestrator of the end-to-end scenario: one text input, one text
output, wrapping `upperFn` (the state `Interface.init [upperFn] [textIn]
[textOut] InterpArg.none true (PyVal.str "never") Option.none Option.none`
produces). -/
def upperItf : Interface :=
  { predict := [upperFn]
    input_components := [textIn]
    output_components := [textOut]
    interpretation := InterpArg.none
    predict_durations := initDurations 1
    allow_flagging := "never"
    flagging_options := Option.none
    api_mode := false
    dyn_attrs := [] }

/-- An orchestrator wrapping two functions (for the duration-statistics
claims): one text input and two text outputs, so each function's single
return value is wrapped. -/
def twoFnItf : Interface :=
  { predict := [constNoneFn, constNoneFn]
    input_components := [textIn]
    output_components := [textOut, textOut]
    interpretation := InterpArg.none
    predict_durations := initDurations 2
    allow_flagging := "never"
    flagging_options := Option.none
    api_mode := false
    dyn_attrs := [] }

/-! ## Pipeline characterization lemmas -/

/-- Claim-side description of the preprocessing comprehension: each input
component's `preprocess`, applied in declared order to the matching raw
input. -/
def specProcessedInputs (itf : Interface) (raw : List PyVal) : List PyVal :=
  List.zipWith (fun ic v => ic.preprocess v) itf.input_components raw

/-- Claim-side description of the prediction list: every wrapped function
applied, in order, to the full processed argument list. -/
def specPredictions (itf : Interface) (pin : List PyVal) : List PyVal :=
  itf.predict.map (fun f => f pin)

/-- Claim-side description of the postprocessing comprehension: each output
component's `postprocess` applied to the matching prediction, with a null
prediction passed through as null. -/
def specOutputs (itf : Interface) (preds : List PyVal) : List PyVal :=
  List.zipWith (fun oc p => match p with
    | PyVal.none => PyVal.none
    | p => oc.postprocess p) itf.output_components preds

theorem ebind_ok {ε α β : Type} (a : α) (f : α → Except ε β) :
    (do let x ← Except.ok a; f x) = f a := rfl

theorem ebind_err {ε α β : Type} (e : ε) (f : α → Except ε β) :
    (do let x ← (Except.error e : Except ε α); f x) = Except.error e := rfl

theorem preprocessLoop_ok (ics : List InputComponent) (raw : List PyVal) (i0 : ℕ)
    (h : i0 + ics.length ≤ raw.length) :
    preprocessLoop ics raw i0 =
      Except.ok (List.zipWith (fun ic v => ic.preprocess v) ics (raw.drop i0)) := by
  induction ics generalizing i0 with
  | nil => simp [preprocessLoop]
  | cons ic rest ih =>
      have hi : i0 < raw.length := by simp at h; omega
      have hget : raw.get? i0 = some raw[i0] := by
        rw [List.get?_eq_getElem?, List.getElem?_eq_getElem hi]
      have hdrop : raw.drop i0 = raw[i0] :: raw.drop (i0 + 1) :=
        List.drop_eq_getElem_cons hi
      have hrec := ih (i0 + 1) (by simp at h ⊢; omega)
      rw [hdrop]
      simp only [preprocessLoop, pyIndex, hget, hrec, ebind_ok, List.zipWith_cons_cons]

theorem postprocessLoop_ok (ocs : List OutputComponent) (preds : List PyVal) (i0 : ℕ)
    (h : i0 + ocs.length ≤ preds.length) :
    postprocessLoop ocs preds i0 =
      Except.ok (List.zipWith (fun oc p => match p with
        | PyVal.none => PyVal.none
        | p => oc.postprocess p) ocs (preds.drop i0)) := by
  induction ocs generalizing i0 with
  | nil => simp [postprocessLoop]
  | cons oc rest ih =>
      have hi : i0 < preds.length := by simp at h; omega
      have hget : preds.get? i0 = some preds[i0] := by
        rw [List.get?_eq_getElem?, List.getElem?_eq_getElem hi]
      have hdrop : preds.drop i0 = preds[i0] :: preds.drop (i0 + 1) :=
        List.drop_eq_getElem_cons hi
      have hrec := ih (i0 + 1) (by simp at h ⊢; omega)
      rw [hdrop]
      simp only [postprocessLoop, pyIndex, hget, hrec, ebind_ok, List.zipWith_cons_cons]

theorem runPredLoop_ok (itf : Interface) (pin : List PyVal) (durO : ℕ → ℚ)
    (hapi : itf.api_mode = false)
    (heq : itf.output_components.length = itf.predict.length)
    (fns : List (List PyVal → PyVal)) (idx occ : ℕ) :
    itf.runPredLoop pin durO fns idx occ =
      Except.ok (fns.map (fun f => f pin), (List.range' idx fns.length).map durO, occ) := by
  induction fns generalizing idx with
  | nil => simp [Interface.runPredLoop]
  | cons f rest ih =>
      have hrec := ih (idx + 1)
      simp only [Interface.runPredLoop, heq, hapi, if_true, if_false, ite_true, ite_false,
        Bool.false_eq_true, ebind_ok, hrec, List.range'_succ, List.map_cons, List.map]
      rfl

theorem run_prediction_ok (itf : Interface) (pin : List PyVal) (durO : ℕ → ℚ)
    (cd : Bool) (hapi : itf.api_mode = false)
    (heq : itf.output_components.length = itf.predict.length) :
    itf.run_prediction pin durO cd =
      Except.ok (itf.predict.map (fun f => f pin),
        (List.range itf.predict.length).map durO) := by
  simp only [Interface.run_prediction, hapi, Bool.false_eq_true, ite_false, if_false,
    ebind_ok, runPredLoop_ok itf pin durO hapi heq itf.predict 0 0,
    List.range_eq_range' itf.predict.length]

theorem durStatsLoop_ok (durs : List ℚ) (ds : DurationState) (i0 : ℕ)
    (h : i0 + durs.length ≤ ds.ptrs.length)
    (hc : ∀ p ∈ ds.ptrs, p < ds.cells.length) :
    ∃ out, durStatsLoop ds durs i0 = Except.ok out := by
  induction durs generalizing ds i0 with
  | nil => exact ⟨(ds, []), rfl⟩
  | cons d rest ih =>
      have hi : i0 < ds.ptrs.length := by simp at h; omega
      have hget : ds.ptrs.get? i0 = some ds.ptrs[i0] := by
        rw [List.get?_eq_getElem?, List.getElem?_eq_getElem hi]
      have hp : ds.ptrs[i0] < ds.cells.length := hc _ (List.getElem_mem hi)
      have hcell : ds.cells.get? ds.ptrs[i0] = some ds.cells[ds.ptrs[i0]] := by
        rw [List.get?_eq_getElem?, List.getElem?_eq_getElem hp]
      have hp2 : ds.ptrs[i0] < (ds.cells.set ds.ptrs[i0]
          (ds.cells[ds.ptrs[i0]].1 + d, ds.cells[ds.ptrs[i0]].2 + 1)).length := by
        rw [List.length_set]; exact hp
      have hcell2 : (ds.cells.set ds.ptrs[i0]
          (ds.cells[ds.ptrs[i0]].1 + d, ds.cells[ds.ptrs[i0]].2 + 1)).get? ds.ptrs[i0]
          = some ((ds.cells.set ds.ptrs[i0]
            (ds.cells[ds.ptrs[i0]].1 + d, ds.cells[ds.ptrs[i0]].2 + 1))[ds.ptrs[i0]]) := by
        rw [List.get?_eq_getElem?, List.getElem?_eq_getElem hp2]
      obtain ⟨⟨ds2, avgs⟩, hout⟩ := ih
        { cells := ds.cells.set ds.ptrs[i0]
            (ds.cells[ds.ptrs[i0]].1 + d, ds.cells[ds.ptrs[i0]].2 + 1)
          ptrs := ds.ptrs } (i0 + 1)
        (by simp at h ⊢; omega)
        (by intro p hpm; rw [List.length_set]; exact hc p hpm)
      refine ⟨(ds2, ((ds.cells.set ds.ptrs[i0]
          (ds.cells[ds.ptrs[i0]].1 + d, ds.cells[ds.ptrs[i0]].2 + 1))[ds.ptrs[i0]].1 /
          ((ds.cells.set ds.ptrs[i0]
            (ds.cells[ds.ptrs[i0]].1 + d, ds.cells[ds.ptrs[i0]].2 + 1))[ds.ptrs[i0]].2 : ℚ))
          :: avgs), ?_⟩
      simp only [durStatsLoop, pyIndex, hget, hcell, hcell2, hout, ebind_ok]

/-- Characterization of `Interface.process` for `apiMode = false` and
matching output/function counts: the returned 4-tuple is built from the
claim-side `spec*` descriptions, and the successor state carries the
updated duration heap. -/
theorem process_characterization (itf : Interface) (raw : List PyVal) (durO : ℕ → ℚ)
    (hapi : itf.api_mode = false)
    (heq : itf.output_components.length = itf.predict.length)
    (hraw : itf.input_components.length ≤ raw.length)
    (hwf : itf.predict.length ≤ itf.predict_durations.ptrs.length)
    (hcells : ∀ p ∈ itf.predict_durations.ptrs, p < itf.predict_durations.cells.length) :
    ∃ ds2 avgs,
      durStatsLoop itf.predict_durations ((List.range itf.predict.length).map durO) 0 =
        Except.ok (ds2, avgs) ∧
      itf.process raw durO = Except.ok
        ({ processed_output := specOutputs itf (specPredictions itf (specProcessedInputs itf raw))
           durations := (List.range itf.predict.length).map durO
           processed_input := specProcessedInputs itf raw
           predictions := specPredictions itf (specProcessedInputs itf raw) },
         { itf with predict_durations := ds2
                    dyn_attrs := setConfigAvg itf.dyn_attrs avgs }) := by
  have hpre := preprocessLoop_ok itf.input_components raw 0 (by simpa using hraw)
  rw [List.drop_zero] at hpre
  have hrun := run_prediction_ok itf
    (List.zipWith (fun ic v => ic.preprocess v) itf.input_components raw) durO false hapi heq
  have hpost := postprocessLoop_ok itf.output_components
    (itf.predict.map (fun f =>
      f (List.zipWith (fun ic v => ic.preprocess v) itf.input_components raw))) 0
    (by simp [heq])
  rw [List.drop_zero] at hpost
  obtain ⟨⟨ds2, avgs⟩, hstats⟩ := durStatsLoop_ok
    ((List.range itf.predict.length).map durO) itf.predict_durations 0
    (by simpa using hwf) hcells
  refine ⟨ds2, avgs, hstats, ?_⟩
  simp only [specProcessedInputs, specPredictions, specOutputs, Interface.process,
    hpre, ebind_ok, hrun, hpost, hstats]

/-- C1: for every orchestrator with `apiMode = false` whose output-component
count equals its function count (sufficient raw inputs supplied, duration
accumulators well-formed), `process(rawInputs)` preprocesses each raw input
through its input component in declared order, passes the full processed
argument list to each function in turn, wraps each function's single return
value, postprocesses per output component with nulls passed through, and
returns the 4-tuple `(processedOutputs, durations, processedInputs,
rawPredictions)`. -/
theorem C1_process_pipeline (itf : Interface) (raw : List PyVal) (durO : ℕ → ℚ)
    (hapi : itf.api_mode = false)
    (heq : itf.output_components.length = itf.predict.length)
    (hraw : itf.input_components.length ≤ raw.length)
    (hwf : itf.predict.length ≤ itf.predict_durations.ptrs.length)
    (hcells : ∀ p ∈ itf.predict_durations.ptrs, p < itf.predict_durations.cells.length) :
    ∃ itf2, itf.process raw durO = Except.ok
      ({ processed_output := specOutputs itf (specPredictions itf (specProcessedInputs itf raw))
         durations := (List.range itf.predict.length).map durO
         processed_input := specProcessedInputs itf raw
         predictions := specPredictions itf (specProcessedInputs itf raw) }, itf2) := by
  obtain ⟨ds2, avgs, _, hp⟩ :=
    process_characterization itf raw durO hapi heq hraw hwf hcells
  exact ⟨_, hp⟩

/-- Witness for C1: the end-to-end scenario — one text input, one text
output, `fn(x) = x.upper()`; `process(["abc"])` returns
`(["ABC"], [1], ["abc"], ["ABC"])`. -/
theorem C1_process_pipeline_witness :
    upperItf.api_mode = false ∧
    upperItf.output_components.length = upperItf.predict.length ∧
    ∃ itf2, upperItf.process [PyVal.str "abc"] durO0 = Except.ok
      ({ processed_output := [PyVal.str "ABC"]
         durations := [1]
         processed_input := [PyVal.str "abc"]
         predictions := [PyVal.str "ABC"] }, itf2) := by
  refine ⟨rfl, rfl, ?_⟩
  obtain ⟨itf2, hp⟩ := C1_process_pipeline upperItf [PyVal.str "abc"] durO0 rfl rfl
    (by decide) (by decide) (by decide)
  refine ⟨itf2, ?_⟩
  rw [hp]
  rfl

/-- C10: for every orchestrator with `apiMode = false`, direct invocation
through `__call__` can never produce a result: whenever `process` returns
its 4-tuple, the destructuring `output, _ = self.process(params)` raises the
too-many-values unpacking `ValueError`, and no invocation returns a
value. -/
theorem C10_call_never_returns (itf : Interface) (params : List PyVal) (durO : ℕ → ℚ)
    (hapi : itf.api_mode = false) :
    (∀ v, itf.call params durO ≠ Except.ok v) ∧
    (∀ r itf2, itf.process params durO = Except.ok (r, itf2) →
      itf.call params durO =
        Except.error (PyErr.valueError "too many values to unpack (expected 2)")) := by
  have hcall : itf.call params durO =
      (match itf.process params durO with
       | Except.ok (r, _) =>
          (Except.error (PyErr.valueError "too many values to unpack (expected 2)")
            : Except PyErr PyVal)
       | Except.error e => Except.error e) := by
    simp only [Interface.call, hapi, Bool.false_eq_true, if_false, ite_false]
    cases hp : itf.process params durO with
    | error e => rfl
    | ok p =>
        obtain ⟨r, itf2⟩ := p
        rfl
  constructor
  · intro v hv
    rw [hcall] at hv
    cases hp : itf.process params durO with
    | error e => rw [hp] at hv; exact Except.noConfusion hv
    | ok p =>
        obtain ⟨r, itf2⟩ := p
        rw [hp] at hv
        exact Except.noConfusion hv
  · intro r itf2 hp
    rw [hcall, hp]

/-- Witness for C10: the end-to-end orchestrator's `process` succeeds on
`["abc"]`, yet calling the interface directly on the same arguments raises
the unpacking `ValueError`. -/
theorem C10_call_never_returns_witness :
    upperItf.api_mode = false ∧
    upperItf.call [PyVal.str "abc"] durO0 =
      Except.error (PyErr.valueError "too many values to unpack (expected 2)") := by
  refine ⟨rfl, ?_⟩
  obtain ⟨ds2, avgs, _, hp⟩ := process_characterization upperItf [PyVal.str "abc"] durO0
    rfl rfl (by decide) (by decide) (by decide)
  exact (C10_call_never_returns upperItf [PyVal.str "abc"] durO0 rfl).2 _ _ hp

/-- C2: the per-function duration accumulators.  `__init__` allocates
`[[0, 0]] * len(fn)`, so with two wrapped functions both entries of
`predict_durations` alias one `[sum, count]` cell; after one `process` call
whose function durations are 1 and 3 the shared cell holds `(4, 2)` and the
exposed running means are `[1, 2]` — the second function's mean is 2, not
its own lifetime average 3 = (3)/1, because the first function's duration
was accumulated into the same cell. -/
theorem C2_duration_stats_shared :
    initDurations 2 = { cells := [(0, 0)], ptrs := [0, 0] } ∧
    durStatsLoop (initDurations 2) [1, 3] 0 =
      Except.ok ({ cells := [(4, 2)], ptrs := [0, 0] }, [1, 2]) ∧
    (∃ r itf2, twoFnItf.process [PyVal.str "x"] durO13 = Except.ok (r, itf2) ∧
      r.durations = [1, 3] ∧
      itf2.predict_durations = { cells := [(4, 2)], ptrs := [0, 0] }) ∧
    ([1, (2 : ℚ)] ≠ [1, 3]) := by
  have hloop : durStatsLoop (initDurations 2) [1, 3] 0 =
      Except.ok ({ cells := [(4, 2)], ptrs := [0, 0] }, [1, 2]) := by
    simp [durStatsLoop, pyIndex, initDurations, List.replicate, ebind_ok]
    norm_num
  refine ⟨rfl, hloop, ?_, by decide⟩
  obtain ⟨ds2, avgs, hstats, hp⟩ := process_characterization twoFnItf [PyVal.str "x"] durO13
    rfl rfl (by decide) (by decide) (by decide)
  have hdur : (List.range twoFnItf.predict.length).map durO13 = [1, 3] := by rfl
  have hpd : twoFnItf.predict_durations = initDurations 2 := rfl
  rw [hdur, hpd, hloop] at hstats
  have hpair : (({ cells := [(4, 2)], ptrs := [0, 0] } : DurationState), [1, (2 : ℚ)])
      = (ds2, avgs) := by
    injection hstats
  rw [Prod.ext_iff] at hpair
  refine ⟨_, _, hp, ?_, ?_⟩
  · exact hdur
  · exact hpair.1.symm

/-- C3 counterexample: with output auto-repeat disabled, two functions and
three output components (not a multiple of two), construction succeeds with
the three components kept as-is instead of raising a configuration
error. -/
theorem C3_counterexample :
    (Interface.init [constNoneFn, constNoneFn] [textIn] [textOut, textOut, textOut]
        InterpArg.none false (PyVal.str "never") Option.none Option.none).isOk = true := by
  rfl

/-- C3 (amended): with auto-repeat enabled, two output components and three
functions, the final output-component list is the whole two-component list
repeated per function — length 6 in function-major order; with auto-repeat
disabled no arity validation is performed at all: construction succeeds with
the output list unchanged for every output/function count, including
non-multiples. -/
theorem C3_output_repeat (f0 f1 f2 : List PyVal → PyVal) (ins : List InputComponent)
    (o0 o1 : OutputComponent) (env : Option String) (fo : Option (List String))
    (fns : List (List PyVal → PyVal)) (outs : List OutputComponent) :
    (∃ itf, Interface.init [f0, f1, f2] ins [o0, o1] InterpArg.none true
        (PyVal.str "never") env fo = Except.ok itf ∧
      itf.output_components = [o0, o1, o0, o1, o0, o1]) ∧
    (∃ itf, Interface.init fns ins outs InterpArg.none false
        (PyVal.str "never") env fo = Except.ok itf ∧
      itf.output_components = outs) := by
  constructor
  · exact ⟨_, rfl, rfl⟩
  · exact ⟨_, rfl, rfl⟩

/-- C4 counterexample: the numeric value `1` is not a boolean and not one of
the three enumeration strings, yet — because Python `1 == True` —
construction succeeds and silently normalizes it to `"manual"` instead of
failing with a configuration error. -/
theorem C4_counterexample :
    Interface.init [constNoneFn] [textIn] [textOut] InterpArg.none true
        (PyVal.int 1) Option.none Option.none = Except.ok
      { predict := [constNoneFn]
        input_components := [textIn]
        output_components := [textOut]
        interpretation := InterpArg.none
        predict_durations := initDurations 1
        allow_flagging := "manual"
        flagging_options := Option.none
        api_mode := false
        dyn_attrs := [] } := rfl

/-- C4 (amended): boolean `True` normalizes to `"manual"` and `False` to
`"never"`; the strings `"never"`, `"manual"`, `"auto"` are accepted
unchanged; but because the chain tests Python `==` against `True` and
`False`, any *numeric* value equal to 1 (resp. 0) is likewise silently
normalized to `"manual"` (resp. `"never"`); every remaining value — any
other number, any unrecognized string, and any non-boolean non-string
non-numeric object such as a list or dict — fails construction with a
`ValueError`. -/
theorem C4_allow_flagging_normalization (fns : List (List PyVal → PyVal))
    (ins : List InputComponent) (outs : List OutputComponent)
    (env : Option String) (fo : Option (List String)) :
    (∃ itf, Interface.init fns ins outs InterpArg.none true (PyVal.bool true) env fo
        = Except.ok itf ∧ itf.allow_flagging = "manual") ∧
    (∃ itf, Interface.init fns ins outs InterpArg.none true (PyVal.bool false) env fo
        = Except.ok itf ∧ itf.allow_flagging = "never") ∧
    (∃ itf, Interface.init fns ins outs InterpArg.none true (PyVal.str "never") env fo
        = Except.ok itf ∧ itf.allow_flagging = "never") ∧
    (∃ itf, Interface.init fns ins outs InterpArg.none true (PyVal.str "manual") env fo
        = Except.ok itf ∧ itf.allow_flagging = "manual") ∧
    (∃ itf, Interface.init fns ins outs InterpArg.none true (PyVal.str "auto") env fo
        = Except.ok itf ∧ itf.allow_flagging = "auto") ∧
    (∃ itf, Interface.init fns ins outs InterpArg.none true (PyVal.int 1) env fo
        = Except.ok itf ∧ itf.allow_flagging = "manual") ∧
    (∃ itf, Interface.init fns ins outs InterpArg.none true (PyVal.int 0) env fo
        = Except.ok itf ∧ itf.allow_flagging = "never") ∧
    (∃ itf, Interface.init fns ins outs InterpArg.none true (PyVal.float 1) env fo
        = Except.ok itf ∧ itf.allow_flagging = "manual") ∧
    (∀ n : ℤ, n ≠ 1 → n ≠ 0 →
      Interface.init fns ins outs InterpArg.none true (PyVal.int n) env fo
        = Except.error (PyErr.valueError
          "Invalid value for allow_flagging parameter. Must be: auto, manual, or never.")) ∧
    (∀ s : String, s ≠ "manual" → s ≠ "never" → s ≠ "auto" →
      Interface.init fns ins outs InterpArg.none true (PyVal.str s) env fo
        = Except.error (PyErr.valueError
          "Invalid value for allow_flagging parameter. Must be: auto, manual, or never.")) ∧
    (∀ xs : List PyVal,
      Interface.init fns ins outs InterpArg.none true (PyVal.list xs) env fo
        = Except.error (PyErr.valueError
          "Invalid value for allow_flagging parameter. Must be: auto, manual, or never.")) ∧
    (∀ kvs : List (String × PyVal),
      Interface.init fns ins outs InterpArg.none true (PyVal.dict kvs) env fo
        = Except.error (PyErr.valueError
          "Invalid value for allow_flagging parameter. Must be: auto, manual, or never.")) := by
  refine ⟨⟨_, rfl, rfl⟩, ⟨_, rfl, rfl⟩, ⟨_, rfl, rfl⟩, ⟨_, rfl, rfl⟩, ⟨_, rfl, rfl⟩,
    ⟨_, rfl, rfl⟩, ⟨_, rfl, rfl⟩, ⟨_, rfl, rfl⟩, ?_, ?_, fun xs => rfl, fun kvs => rfl⟩
  · intro n h1 h0
    have e1 : (n == 1) = false := by simpa using h1
    have e0 : (n == 0) = false := by simpa using h0
    simp [Interface.init, resolveInterpretation, resolveAllowFlagging,
      pyEqBool, pyEqStr, e1, e0, ebind_ok, ebind_err]
  · intro s h1 h2 h3
    have e1 : (s == "manual") = false := by simpa using h1
    have e2 : (s == "never") = false := by simpa using h2
    have e3 : (s == "auto") = false := by simpa using h3
    simp [Interface.init, resolveInterpretation, resolveAllowFlagging,
      pyEqBool, pyEqStr, e1, e2, e3, ebind_ok, ebind_err]

/-- Witness for C4 (amended): the unrecognized string `"bogus"` and the
number `2` fail construction with the `ValueError`, while the boolean
`True` and — silently — the number `1` normalize to `"manual"`. -/
theorem C4_allow_flagging_normalization_witness :
    Interface.init [constNoneFn] [textIn] [textOut] InterpArg.none true
      (PyVal.str "bogus") Option.none Option.none = Except.error
        (PyErr.valueError
          "Invalid value for allow_flagging parameter. Must be: auto, manual, or never.") ∧
    Interface.init [constNoneFn] [textIn] [textOut] InterpArg.none true
      (PyVal.int 2) Option.none Option.none = Except.error
        (PyErr.valueError
          "Invalid value for allow_flagging parameter. Must be: auto, manual, or never.") ∧
    (∃ itf, Interface.init [constNoneFn] [textIn] [textOut] InterpArg.none true
        (PyVal.bool true) Option.none Option.none = Except.ok itf ∧
      itf.allow_flagging = "manual") ∧
    (∃ itf, Interface.init [constNoneFn] [textIn] [textOut] InterpArg.none true
        (PyVal.int 1) Option.none Option.none = Except.ok itf ∧
      itf.allow_flagging = "manual") := by
  refine ⟨?_, ?_, ?_, ?_⟩
  · exact (C4_allow_flagging_normalization [constNoneFn] [textIn] [textOut]
      Option.none Option.none).2.2.2.2.2.2.2.2.2.1 "bogus"
      (by decide) (by decide) (by decide)
  · exact (C4_allow_flagging_normalization [constNoneFn] [textIn] [textOut]
      Option.none Option.none).2.2.2.2.2.2.2.2.1 2 (by decide) (by decide)
  · exact (C4_allow_flagging_normalization [constNoneFn] [textIn] [textOut]
      Option.none Option.none).1
  · exact (C4_allow_flagging_normalization [constNoneFn] [textIn] [textOut]
      Option.none Option.none).2.2.2.2.2.1

/-- C5 counterexample: with two input components and a one-element
interpretation list, construction succeeds and stores the mismatched list
as-is — no `InvalidInterpretationSpec` configuration error is raised. -/
theorem C5_counterexample :
    Interface.init [constNoneFn] [textIn, textIn] [textOut]
        (InterpArg.list [PyVal.str "default"]) true (PyVal.str "never")
        Option.none Option.none = Except.ok
      { predict := [constNoneFn]
        input_components := [textIn, textIn]
        output_components := [textOut]
        interpretation := InterpArg.list [PyVal.str "default"]
        predict_durations := initDurations 1
        allow_flagging := "never"
        flagging_options := Option.none
        api_mode := false
        dyn_attrs := [] } := rfl

/-- C5 (amended): an interpretation string is lowercased and broadcast to
one entry per input component; an interpretation *list* is stored as-is
whatever its length — no length validation against the input components is
performed; a callable or null is stored as-is; any other type fails
construction with a `ValueError`. -/
theorem C5_interpretation_normalization (fns : List (List PyVal → PyVal))
    (ins : List InputComponent) (outs : List OutputComponent)
    (env : Option String) (fo : Option (List String)) :
    (∀ s : String, ∃ itf,
      Interface.init fns ins outs (InterpArg.str s) true (PyVal.str "never") env fo
        = Except.ok itf ∧
      itf.interpretation = InterpArg.list (ins.map (fun _ => PyVal.str (pyLower s))) ∧
      (ins.map (fun _ => PyVal.str (pyLower s))).length = ins.length) ∧
    (∀ xs : List PyVal, ∃ itf,
      Interface.init fns ins outs (InterpArg.list xs) true (PyVal.str "never") env fo
        = Except.ok itf ∧ itf.interpretation = InterpArg.list xs) ∧
    (∃ itf, Interface.init fns ins outs InterpArg.none true (PyVal.str "never") env fo
        = Except.ok itf ∧ itf.interpretation = InterpArg.none) ∧
    (∃ itf, Interface.init fns ins outs InterpArg.callable true (PyVal.str "never") env fo
        = Except.ok itf ∧ itf.interpretation = InterpArg.callable) ∧
    (Interface.init fns ins outs InterpArg.other true (PyVal.str "never") env fo
        = Except.error (PyErr.valueError "Invalid value for parameter: interpretation")) := by
  exact ⟨fun s => ⟨_, rfl, rfl, List.length_map _ _⟩, fun xs => ⟨_, rfl, rfl⟩,
    ⟨_, rfl, rfl⟩, ⟨_, rfl, rfl⟩, rfl⟩

/-- The end-to-end orchestrator constructed with `allow_flagging="auto"`. -/
def autoItf : Interface :=
  { predict := [upperFn]
    input_components := [textIn]
    output_components := [textOut]
    interpretation := InterpArg.none
    predict_durations := initDurations 1
    allow_flagging := "auto"
    flagging_options := Option.none
    api_mode := false
    dyn_attrs := [] }

/-- A flagging sink returning a constant null index. -/
def nullSink : FlagSink := { flag := fun _ _ _ _ _ => PyVal.none }

/-- C8: in auto mode the flagging hook is never reached — evaluating the
argument `self.interface` of the `flag(...)` call raises `AttributeError`,
because `__init__` never assigns that attribute; in the other modes the
sink is not invoked at all and `flag_index` is surfaced as null.  So flag
is not invoked synchronously with its index surfaced; auto-mode serving
crashes instead. -/
theorem C8_auto_flagging_crashes :
    Interface.init [upperFn] [textIn] [textOut] InterpArg.none true (PyVal.str "auto")
      Option.none Option.none = Except.ok autoItf ∧
    autoItf.dyn_attrs = [] ∧
    autoItf.predict_fn nullSink [("data", PyVal.list [PyVal.str "abc"])] [] durO0
      = Except.error (PyErr.attributeError "Interface object has no attribute interface") ∧
    (∀ sink : FlagSink, ∃ itf2,
      upperItf.predict_fn sink [("data", PyVal.list [PyVal.str "abc"])] [] durO0
        = Except.ok ([("data", PyVal.list [PyVal.str "ABC"]),
                      ("durations", PyVal.list [PyVal.float 1]),
                      ("avg_durations", PyVal.none),
                      ("flag_index", PyVal.none)],
                     [PyVal.str "abc"], [PyVal.str "ABC"], itf2)) := by
  refine ⟨rfl, rfl, rfl, fun sink => ⟨_, rfl⟩⟩

/-- Whether a load result failed with the kind that distinguishes
descriptor-parse failures (the JSON decode error) from generic runtime
errors. -/
def isParseErrorKind (r : Except PyErr (List (String × PyVal))) : Bool :=
  match r with
  | Except.error (PyErr.jsonDecodeError _) => true
  | _ => false

/-- C6 counterexample: a fetched page with no `window.config` assignment
makes the scrape-based load fail with a generic `AttributeError` (from
dereferencing the failed `re.search` result), which is not a
distinguishing descriptor-parse error kind. -/
theorem C6_counterexample :
    get_spaces_interface "<html><body>no assignment here</body></html>"
      = Except.error (PyErr.attributeError "NoneType object has no attribute group") ∧
    isParseErrorKind
      (get_spaces_interface "<html><body>no assignment here</body></html>") = false := by
  exact ⟨rfl, rfl⟩

/-- C6 (amended): when the page body contains no assignment to the expected
in-page variable the load fails with a generic `AttributeError` (from
`None.group(1)`), not a distinguishing parse-error kind; when the captured
assignment is invalid JSON the load fails with the JSON decode error; in
both cases the load fails — it never returns a successful (empty or
otherwise) descriptor. -/
theorem C6_scrape_failures :
    (∀ page : String, reSearchWindowConfig page = Option.none →
      get_spaces_interface page =
        Except.error (PyErr.attributeError "NoneType object has no attribute group")) ∧
    (∀ (page g : String) (e : PyErr), reSearchWindowConfig page = some g →
      jsonLoads g = Except.error e →
      get_spaces_interface page = Except.error e) ∧
    (∀ (page : String) (r : List (String × PyVal)),
      (reSearchWindowConfig page = Option.none ∨
        (∃ g e, reSearchWindowConfig page = some g ∧ jsonLoads g = Except.error e)) →
      get_spaces_interface page ≠ Except.ok r) := by
  have h1 : ∀ page : String, reSearchWindowConfig page = Option.none →
      get_spaces_interface page =
        Except.error (PyErr.attributeError "NoneType object has no attribute group") := by
    intro page hnone
    simp [get_spaces_interface, hnone, ebind_ok, ebind_err]
  have h2 : ∀ (page g : String) (e : PyErr), reSearchWindowConfig page = some g →
      jsonLoads g = Except.error e →
      get_spaces_interface page = Except.error e := by
    intro page g e hsome hjson
    simp [get_spaces_interface, hsome, hjson, ebind_ok, ebind_err]
  refine ⟨h1, h2, ?_⟩
  intro page r hcase hok
  cases hcase with
  | inl hnone => rw [h1 page hnone] at hok; exact Except.noConfusion hok
  | inr hex =>
      obtain ⟨g, e, hsome, hjson⟩ := hex
      rw [h2 page g e hsome hjson] at hok
      exact Except.noConfusion hok

/-- Witness for C6: a page carrying an invalid JSON assignment fails with
the JSON decode error, and a page with no assignment fails with the
attribute error. -/
theorem C6_scrape_failures_witness :
    reSearchWindowConfig "window.config =notjson;\nrest" = some "notjson" ∧
    jsonLoads "notjson" = Except.error (PyErr.jsonDecodeError "Expecting value") ∧
    get_spaces_interface "window.config =notjson;\nrest"
      = Except.error (PyErr.jsonDecodeError "Expecting value") ∧
    reSearchWindowConfig "<p>nothing here</p>" = Option.none ∧
    get_spaces_interface "<p>nothing here</p>"
      = Except.error (PyErr.attributeError "NoneType object has no attribute group") := by
  refine ⟨rfl, rfl, ?_, rfl, ?_⟩
  · exact C6_scrape_failures.2.1 "window.config =notjson;\nrest" "notjson"
      (PyErr.jsonDecodeError "Expecting value") rfl rfl
  · exact C6_scrape_failures.1 "<p>nothing here</p>" rfl

/-- C7: registry-based descriptor construction — under a successful
metadata fetch, construction fails with the unsupported-task `ValueError`
exactly when the returned task type is absent from the fixed table; and the
produced callable fails with the `ValueError` carrying the HTTP status on
every invocation whose inference POST returns a non-200 status. -/
theorem C7_registry_task_table (r : HFMetaResponse)
    (pre : List PyVal → PyVal) (post : HttpResponse → PyVal)
    (doPost : PyVal → HttpResponse) (params : List PyVal) :
    (r.status_code = 200 →
      (get_huggingface_interface r
          = Except.error (PyErr.valueError "Unsupported pipeline type")
        ↔ hfTagSupported (r.json.lookup "pipeline_tag") = false)) ∧
    ((doPost (hfPreparePayload (pre params))).status_code ≠ 200 →
      query_huggingface_api pre post doPost params = Except.error
        (PyErr.valueError ("Could not complete request to HuggingFace API, Error "
          ++ toString (doPost (hfPreparePayload (pre params))).status_code))) := by
  constructor
  · intro h200
    unfold get_huggingface_interface
    rw [h200]
    simp only [ne_eq, not_true_eq_false, if_false, ite_false]
    cases hl : r.json.lookup "pipeline_tag" with
    | none => simp [hfTagSupported]
    | some v =>
        cases v with
        | str s =>
            by_cases hs : hfPipelineKeys.contains s
            · simp [hfTagSupported, hs]
            · simp [hfTagSupported, hs]
        | none => simp [hfTagSupported]
        | bool b => simp [hfTagSupported]
        | int n => simp [hfTagSupported]
        | float q => simp [hfTagSupported]
        | list xs => simp [hfTagSupported]
        | dict kvs => simp [hfTagSupported]
  · intro hbad
    unfold query_huggingface_api
    rw [if_pos hbad]

/-- Witness for C7: a 200 metadata response with the unknown tag
`"frobnicate"` fails with the unsupported-task error, one with the known
tag `"text-generation"` succeeds, and a callable whose POST always returns
status 500 fails with the error carrying 500. -/
theorem C7_registry_task_table_witness :
    get_huggingface_interface
        { status_code := 200, json := [("pipeline_tag", PyVal.str "frobnicate")] }
      = Except.error (PyErr.valueError "Unsupported pipeline type") ∧
    get_huggingface_interface
        { status_code := 200, json := [("pipeline_tag", PyVal.str "text-generation")] }
      = Except.ok "text-generation" ∧
    query_huggingface_api (fun _ => PyVal.none) (fun resp => resp.body)
        (fun _ => { status_code := 500, body := PyVal.none }) []
      = Except.error (PyErr.valueError
          "Could not complete request to HuggingFace API, Error 500") := by
  refine ⟨?_, rfl, ?_⟩
  · exact ((C7_registry_task_table
      { status_code := 200, json := [("pipeline_tag", PyVal.str "frobnicate")] }
      (fun _ => PyVal.none) (fun resp => resp.body)
      (fun _ => { status_code := 500, body := PyVal.none }) []).1 rfl).mpr rfl
  · exact (C7_registry_task_table
      { status_code := 200, json := [("pipeline_tag", PyVal.str "frobnicate")] }
      (fun _ => PyVal.none) (fun resp => resp.body)
      (fun _ => { status_code := 500, body := PyVal.none }) []).2 (by decide)

/-- A solver oracle for runs in which `solve_ivp` returns successfully. -/
def odeOK : OdeOracle := { raises := Option.none, success := true }

/-- C9 counterexample: a non-numeric `mu` does not raise and falls back to
the documented default `1.0`, but no entry is recorded in the diagnostic
messages list — `simulate` returns `messages = []`. -/
theorem C9_counterexample :
    (simulate odeOK [("mu", PyVal.str "abc"), ("t_iteration", PyVal.int 2)]).mu = 1 ∧
    (simulate odeOK [("mu", PyVal.str "abc"), ("t_iteration", PyVal.int 2)]).messages
      = [] := by
  exact ⟨rfl, rfl⟩

/-- A parameter dict in which every coercible parameter is the same
malformed (non-numeric) string, with a small `t_iteration`. -/
def malformedParams (s : String) : List (String × PyVal) :=
  [("mu", PyVal.str s), ("eval_time", PyVal.str s), ("mgrid_size", PyVal.str s),
   ("z0", PyVal.str s), ("t_span", PyVal.str s), ("t_eval", PyVal.str s),
   ("t_iteration", PyVal.int 2)]

/-- C9 (amended): `simulate` never raises on malformed parameters; the
sequence-shaped parameters `z0`, `t_span`, `t_eval` fall back to their
documented defaults *and* record a diagnostic message, while the scalar
parameters coerced through `_to_float` (`mu`, `eval_time`, `mgrid_size`)
fall back to their documented defaults silently, with no message
recorded. -/
theorem C9_coercion_fallbacks (s : String) (hnum : pyParseFloat s = Option.none)
    (ode : OdeOracle) (hode : ode.raises = Option.none) :
    (vdpParse (malformedParams s)).mu = 1 ∧
    (vdpParse (malformedParams s)).eval_time = 100 ∧
    (vdpParse (malformedParams s)).mgrid_size = 8 ∧
    (vdpParse (malformedParams s)).z0 = (2, 0) ∧
    (vdpParse (malformedParams s)).t_span = (0, 100) ∧
    (vdpParse (malformedParams s)).messages =
      ["z0 could not be parsed; using default [2,0]",
       "t_span could not be parsed; using [0, eval_time]",
       "t_eval could not be parsed; using linspace"] ∧
    (simulate ode (malformedParams s)).messages =
      ["z0 could not be parsed; using default [2,0]",
       "t_span could not be parsed; using [0, eval_time]",
       "t_eval could not be parsed; using linspace"] := by
  have h100 : ¬((100 : ℚ) ≤ 0) := by norm_num
  have h22 : ¬((2 : ℤ) < 2) := by decide
  refine ⟨?_, ?_, ?_, ?_, ?_, ?_, ?_⟩ <;>
    simp +decide [vdpParse, simulate, malformedParams, paramsGet, List.lookup,
      toFloatD, toIntD, pyFloat, pyInt, hnum, npArrayFloat, vdpSolverMsgs,
      hode, h100, h22]

/-- Witness for C9: the amended fallback policy at the concrete malformed
string `"abc"` with a successfully returning solver. -/
theorem C9_coercion_fallbacks_witness :
    (vdpParse (malformedParams "abc")).mu = 1 ∧
    (vdpParse (malformedParams "abc")).eval_time = 100 ∧
    (vdpParse (malformedParams "abc")).mgrid_size = 8 ∧
    (vdpParse (malformedParams "abc")).z0 = (2, 0) ∧
    (vdpParse (malformedParams "abc")).t_span = (0, 100) ∧
    (vdpParse (malformedParams "abc")).messages =
      ["z0 could not be parsed; using default [2,0]",
       "t_span could not be parsed; using [0, eval_time]",
       "t_eval could not be parsed; using linspace"] ∧
    (simulate odeOK (malformedParams "abc")).messages =
      ["z0 could not be parsed; using default [2,0]",
       "t_span could not be parsed; using [0, eval_time]",
       "t_eval could not be parsed; using linspace"] :=
  C9_coercion_fallbacks "abc" rfl odeOK rfl
